import Mathlib

/-!
Verification of the TCC CPAP repository core.

Shallow embedding, over `ℚ`, of the two source files:
* `src/algorithms/PID_Controller.py` — the discrete PI/PID controller and the
  two tuning entry points (`train_pid_with_ZN_method`, `train_pid_controller`);
* `src/environments/CPAP_env.py` — the `Lung` and `Ventilator` parameter
  records and the respiratory plant simulator `simulation_model`.

Python floats are modelled as rationals; `np.exp` (an external library
function applied to one scalar here) is modelled as an abstract function
parameter `expFn : ℚ → ℚ`; `scipy.optimize.minimize` is modelled as an
abstract optimizer `(ℚ × ℚ × ℚ) → ℚ × ℚ × ℚ`; the open-loop step-response
tangent analysis performed by the `control`/`numpy` libraries is summarised
by its two scalar outputs `L` (apparent dead time) and `T` (time constant),
which the Ziegler–Nichols gain table consumes.
-/

namespace CPAP

/-- `np.clip(x, lo, hi)`: numpy computes `minimum(hi, maximum(x, lo))`. -/
def npClip (x lo hi : ℚ) : ℚ := min (max x lo) hi

/-! Section: `PIDController` (src/algorithms/PID_Controller.py, lines 30-63)

The Python object holds gains `Kp, Ki, Kd`, the integrator bounds
`self.min, self.max` (from `integrator_bounds`), the step `dt`,
`previous_error` (initially 0) and the accumulated `integral` (initially 0).
`use_derivative` selects between the two closures `_PI_formula` and
`_PID_formula`; both are embedded as state-passing functions. -/

structure PIDState where
  Kp : ℚ
  Ki : ℚ
  Kd : ℚ
  min : ℚ
  max : ℚ
  dt : ℚ
  previous_error : ℚ
  integral : ℚ
deriving DecidableEq, Repr

/-- `PIDController.__init__` field initialisation: `previous_error = 0`,
`integral = 0` (lines 45-46). -/
def PIDState.init (Kp Ki Kd lo hi dt : ℚ) : PIDState :=
  { Kp := Kp, Ki := Ki, Kd := Kd, min := lo, max := hi, dt := dt
    previous_error := 0, integral := 0 }

/-- `_PI_formula` (lines 53-55):
`self.integral += np.clip(error * self.dt, self.min, self.max)` then
`return self.Kp * error + self.Ki * self.integral`. -/
def PI_formula (s : PIDState) (error : ℚ) : PIDState × ℚ :=
  let integral := s.integral + npClip (error * s.dt) s.min s.max
  ({ s with integral := integral }, s.Kp * error + s.Ki * integral)

/-- `_PID_formula` (lines 48-51): updates the integral the same way, computes
`derivative = (error - self.previous_error) / self.dt`, evaluates
`self.Kp * error + self.Ki * self.integral + self.Kd * derivative` as a bare
expression statement, and falls off the end: the Python function body has no
`return`, so the caller receives `None` — modelled as `none : Option ℚ`. -/
def PID_formula (s : PIDState) (error : ℚ) : PIDState × Option ℚ :=
  let integral := s.integral + npClip (error * s.dt) s.min s.max
  ({ s with integral := integral }, none)

/-- The value the `_PID_formula` body computes and then discards
(line 51 of the source: an expression statement, not a `return`). -/
def PID_computed_value (s : PIDState) (error : ℚ) : ℚ :=
  let integral := s.integral + npClip (error * s.dt) s.min s.max
  let derivative := (error - s.previous_error) / s.dt
  s.Kp * error + s.Ki * integral + s.Kd * derivative

/-- `__call__` (lines 59-63) with `use_derivative=False`:
`output = self.formula(error)` (here `_PI_formula`), then
`self.previous_error = error`, then `return output`. -/
def call_PI (s : PIDState) (error : ℚ) : PIDState × ℚ :=
  let r := PI_formula s error
  ({ r.1 with previous_error := error }, r.2)

/-- `__call__` (lines 59-63) with `use_derivative=True`: same, but
`self.formula` is `_PID_formula`, whose Python return value is `None`. -/
def call_PID (s : PIDState) (error : ℚ) : PIDState × Option ℚ :=
  let r := PID_formula s error
  ({ r.1 with previous_error := error }, r.2)

/-! Section: Ziegler–Nichols tuner (`train_pid_with_ZN_method`, lines 66-167)

The function first runs the reaction-curve tangent analysis (library calls
into `control`/`numpy`), whose only outputs consumed afterwards are the
apparent dead time `L` and the time constant `T`.  It then selects the gain
triple by `pid_type` (lines 101-114, raising `ValueError` on anything other
than `"P"`, `"PI"`, `"PID"`), and, when `plot=True` (the default), renders a
diagnostic figure and calls `exit()` (line 150), terminating the process
before the `return kp, ki, kd` at line 167 is reached. -/

/-- The three possible fates of a `train_pid_with_ZN_method` call: a raised
`ValueError` for an unknown `pid_type`; process termination through `exit()`
on the plotting path after the gains were computed (the computed triple is
recorded in the constructor, though it is never returned to any caller); or a
normal return of the gain triple. -/
inductive ZNOutcome where
  | invalidType
  | exited (g : ℚ × ℚ × ℚ)
  | gains (g : ℚ × ℚ × ℚ)
deriving DecidableEq, Repr

/-- The Ziegler–Nichols gain table, lines 101-114: the `if/elif` chain on
`pid_type`; `none` models the `raise ValueError(...)` branch. -/
def zn_gain_table (pid_type : String) (L T : ℚ) : Option (ℚ × ℚ × ℚ) :=
  if pid_type = "P" then some (T / L, 0, 0)
  else if pid_type = "PI" then some (0.9 * (T / L), L / 0.3, 0)
  else if pid_type = "PID" then some (1.2 * (T / L), 2 * L, 0.5 * L)
  else none

/-- `train_pid_with_ZN_method` (lines 66-167), given the tangent-analysis
results `L` and `T`: gain selection happens first, so an invalid `pid_type`
raises before the plotting block; otherwise, `plot=True` ends in `exit()`
(line 150) and only `plot=False` reaches `return kp, ki, kd` (line 167). -/
def train_pid_with_ZN_method (L T : ℚ) (pid_type : String) (plot : Bool) :
    ZNOutcome :=
  match zn_gain_table pid_type L T with
  | none => .invalidType
  | some g => if plot then .exited g else .gains g

/-! Section: `train_pid_controller` (lines 170-235)

With `pid_training_method = "ZN"` it calls
`PIDController.train_pid_with_ZN_method(plant, pid_type)` — two positional
arguments, so `plot` keeps its default `True`.  With any other method string
it runs `scipy.optimize.minimize` over the closed-loop objective and takes
`optimized_params.x`; `pid_type` is never read on this path.  On success the
gains are wrapped into the continuous-time `pid_controller` closure. -/

/-- Outcome of `train_pid_controller`: propagated `ValueError`, process
termination inherited from the ZN plotting path, or a returned controller
carrying its optimized gain triple. -/
inductive TrainResult where
  | invalidType
  | exited (g : ℚ × ℚ × ℚ)
  | controller (g : ℚ × ℚ × ℚ)
deriving DecidableEq, Repr

/-- `true` exactly on the `controller` constructor. -/
def TrainResult.isController : TrainResult → Bool
  | .controller _ => true
  | _ => false

/-- `train_pid_controller` (lines 170-235).  `optimizer` abstracts
`scipy.optimize.minimize(optimize_pid, [initial_kp, initial_ki, initial_kd],
method=pid_training_method).x`, a function of the initial guess; `L`, `T`
abstract the plant's tangent analysis as above.  The ZN branch (line 192)
passes only `plant, pid_type`, leaving `plot=True`; an exception or `exit()`
inside it propagates, so the closure construction at lines 213-235 is reached
only when gains were actually produced. -/
def train_pid_controller (optimizer : ℚ × ℚ × ℚ → ℚ × ℚ × ℚ) (L T : ℚ)
    (pid_training_method : String) (pid_type : String) (init : ℚ × ℚ × ℚ) :
    TrainResult :=
  if pid_training_method = "ZN" then
    match train_pid_with_ZN_method L T pid_type true with
    | .invalidType => .invalidType
    | .exited g => .exited g
    | .gains g => .controller g
  else
    .controller (optimizer init)

/-! Section: `Lung` and `Ventilator` (src/environments/CPAP_env.py, lines 18-61)

Both Python constructors only compute and store fields; neither performs any
validation, so both are embedded as total functions of their arguments
(structure literals) with the derived fields as accessor definitions. -/

structure Lung where
  r_aw : ℚ
  c_rs : ℚ
deriving DecidableEq, Repr

/-- `self._r_aw = r_aw / 1000` (line 25). -/
def Lung._r_aw (l : Lung) : ℚ := l.r_aw / 1000

structure Ventilator where
  v_t : ℚ
  peep : ℚ
  rr : ℚ
  t_i : ℚ
  t_ip : ℚ
deriving DecidableEq, Repr

/-- `self._rr = rr / 60` (line 46). -/
def Ventilator._rr (v : Ventilator) : ℚ := v.rr / 60

/-- `self.t_c = 1 / self._rr` (line 55). -/
def Ventilator.t_c (v : Ventilator) : ℚ := 1 / v._rr

/-- `self.t_e = self.t_c - self.t_i - self.t_ip` (line 58). -/
def Ventilator.t_e (v : Ventilator) : ℚ := v.t_c - v.t_i - v.t_ip

/-- `self._f_i = self.v_t / (self.t_i)` (line 61). -/
def Ventilator._f_i (v : Ventilator) : ℚ := v.v_t / v.t_i

/-! Section: The plant simulator (`CpapEnv.simulation_model`, lines 149-234) -/

inductive Phase where
  | exhale
  | inhale
  | pause
deriving DecidableEq, Repr

/-- The mutable simulation-model fields of `CpapEnv` (lines 79-82, matching
the `SimulationState` TypedDict at lines 64-68): the never-reset tick index
`i`, the per-phase counter, the phase tag and the latched phase start time. -/
structure SimulationState where
  i : ℕ
  phase_counter : ℕ
  phase : Phase
  start_phase_time : ℚ
deriving DecidableEq, Repr

/-- Class-attribute initial values (lines 79-82):
`i = 0`, `phase_counter = 1`, `phase = "exhale"`, `start_phase_time = 0`. -/
def CpapEnv.initial_state : SimulationState :=
  { i := 0, phase_counter := 1, phase := .exhale, start_phase_time := 0 }

/-- `CpapEnv._expiratory_flow` (lines 230-234), with `np.exp` abstracted as
`expFn`: `(peep - last_pressure) / _r_aw * exp(-(current - start) / (_r_aw * c_rs))`. -/
def expiratory_flow (expFn : ℚ → ℚ) (lung : Lung) (ventilator : Ventilator)
    (last_pressure start_time current_time : ℚ) : ℚ :=
  let _t := current_time - start_time
  let _rc := lung._r_aw * lung.c_rs
  (ventilator.peep - last_pressure) / lung._r_aw * expFn (-_t / _rc)

/-- The keyword parameters of `simulation_model` (lines 153-157), all
generated by the ensemble.  `rp, c, rl, tb, kb` are accepted but never read
in the body; they are kept for signature fidelity. -/
structure SimParams where
  rp : ℚ
  c : ℚ
  rl : ℚ
  tb : ℚ
  kb : ℚ
  r_aw : ℚ
  c_rs : ℚ
  v_t : ℚ
  peep : ℚ
  rr : ℚ
  t_i : ℚ
  t_ip : ℚ
  dt : ℚ
  f_s : ℚ
deriving DecidableEq, Repr

/-- The returned observation dict `{"x1": flow, "x2": volume, "x3": pressure}`
(lines 219-227). -/
structure Obs where
  x1 : ℚ
  x2 : ℚ
  x3 : ℚ
deriving DecidableEq, Repr

/-- `CpapEnv.simulation_model` (lines 149-227).  State-passing embedding of
the method: the mutable `self` fields go in and come out as
`SimulationState`; the action `u_t` and the incoming `x` vector are the
positional arguments (the body never reads `u_t`).  Each `match` arm is the
corresponding `if self.phase == ...` branch:

* `exhale` (lines 165-185): latch `start_phase_time` when
  `phase_counter == 0`, compute the exponential-decay expiratory flow,
  integrate volume, apply the static lung pressure equation, then increment
  the counter and, when it reaches `t_e * f_s`, move to `inhale` with the
  counter set to 1;
* `inhale` (lines 188-202): flow is the fixed inspiratory flow `_f_i`;
  volume integrates unless `i == 0` (first episode tick), where it resets to
  0; same pressure equation; transition to `pause` at `t_i * f_s`;
* `pause` (lines 204-213): flow 0, same volume/pressure equations,
  transition to `exhale` at `t_ip * f_s`.

After the phase branch the reported flow is converted (`* 60 / 1000`,
line 215) and `i` is incremented unconditionally (line 217). -/
def simulation_model (expFn : ℚ → ℚ) (p : SimParams) (st : SimulationState)
    (u_t current_flow current_volume current_pressure : ℚ) :
    SimulationState × Obs :=
  let lung : Lung := { r_aw := p.r_aw, c_rs := p.c_rs }
  let ventilator : Ventilator :=
    { v_t := p.v_t, peep := p.peep, rr := p.rr, t_i := p.t_i, t_ip := p.t_ip }
  match st.phase with
  | .exhale =>
    let current_time := (st.i : ℚ) * p.dt
    let start_phase_time :=
      if st.phase_counter = 0 then current_time else st.start_phase_time
    let current_flow :=
      expiratory_flow expFn lung ventilator current_pressure
        start_phase_time current_time
    let current_volume := current_volume + current_flow * p.dt
    let current_pressure :=
      current_flow * lung._r_aw + current_volume / lung.c_rs + ventilator.peep
    let pc := st.phase_counter + 1
    let next : SimulationState :=
      if (pc : ℚ) ≥ ventilator.t_e * p.f_s then
        { i := st.i + 1, phase_counter := 1, phase := .inhale,
          start_phase_time := start_phase_time }
      else
        { i := st.i + 1, phase_counter := pc, phase := .exhale,
          start_phase_time := start_phase_time }
    (next,
     { x1 := current_flow * 60 / 1000, x2 := current_volume,
       x3 := current_pressure })
  | .inhale =>
    let current_flow := ventilator._f_i
    let current_volume :=
      if st.i > 0 then current_volume + current_flow * p.dt else 0
    let current_pressure :=
      current_flow * lung._r_aw + current_volume / lung.c_rs + ventilator.peep
    let pc := st.phase_counter + 1
    let next : SimulationState :=
      if (pc : ℚ) ≥ ventilator.t_i * p.f_s then
        { i := st.i + 1, phase_counter := 1, phase := .pause,
          start_phase_time := st.start_phase_time }
      else
        { i := st.i + 1, phase_counter := pc, phase := .inhale,
          start_phase_time := st.start_phase_time }
    (next,
     { x1 := current_flow * 60 / 1000, x2 := current_volume,
       x3 := current_pressure })
  | .pause =>
    let current_flow : ℚ := 0
    let current_volume := current_volume + current_flow * p.dt
    let current_pressure :=
      lung._r_aw * current_flow + current_volume / lung.c_rs + ventilator.peep
    let pc := st.phase_counter + 1
    let next : SimulationState :=
      if (pc : ℚ) ≥ ventilator.t_ip * p.f_s then
        { i := st.i + 1, phase_counter := 1, phase := .exhale,
          start_phase_time := st.start_phase_time }
      else
        { i := st.i + 1, phase_counter := pc, phase := .pause,
          start_phase_time := st.start_phase_time }
    (next,
     { x1 := current_flow * 60 / 1000, x2 := current_volume,
       x3 := current_pressure })

/-- The concrete ensemble parameters hard-wired in
`CpapEnv.create_cpap_environment` (lines 285-341): lung `r_aw=3, c_rs=60`,
ventilator `v_t=350, peep=5, rr=15, t_i=1, t_ip=0.25`, `f_s=30`,
`dt=1/30`, patient `rp=10e-3, c=50, rl=48.5*60/1000`, blower `tb=rp`
(the source reuses `_rp` for `tb` in the distributions dict), `kb=0.5`. -/
def create_cpap_sample_params : SimParams :=
  { rp := 1/100, c := 50, rl := 485/10 * 60 / 1000, tb := 1/100, kb := 1/2,
    r_aw := 3, c_rs := 60, v_t := 350, peep := 5, rr := 15, t_i := 1,
    t_ip := 1/4, dt := 1/30, f_s := 30 }

/-- The successor of each phase in the fixed cycle
exhale → inhale → pause → exhale. -/
def cycle_next : Phase → Phase
  | .exhale => .inhale
  | .inhale => .pause
  | .pause => .exhale

/-- The duration of each phase used by its transition guard:
`t_e` for exhale, `t_i` for inhale, `t_ip` for pause. -/
def phase_duration (v : Ventilator) : Phase → ℚ
  | .exhale => v.t_e
  | .inhale => v.t_i
  | .pause => v.t_ip

/-- The unconverted (internal) flow each phase branch computes before the
`* 60 / 1000` reporting conversion at line 215: exponential decay in exhale
(with the latch applied when `phase_counter == 0`), `_f_i` in inhale, 0 in
pause. -/
def phase_flow (expFn : ℚ → ℚ) (p : SimParams) (st : SimulationState)
    (current_pressure : ℚ) : ℚ :=
  let lung : Lung := { r_aw := p.r_aw, c_rs := p.c_rs }
  let ventilator : Ventilator :=
    { v_t := p.v_t, peep := p.peep, rr := p.rr, t_i := p.t_i, t_ip := p.t_ip }
  match st.phase with
  | .exhale =>
    let current_time := (st.i : ℚ) * p.dt
    let start_phase_time :=
      if st.phase_counter = 0 then current_time else st.start_phase_time
    expiratory_flow expFn lung ventilator current_pressure
      start_phase_time current_time
  | .inhale => ventilator._f_i
  | .pause => 0

/-- The volume update each phase branch performs, in terms of the
unconverted `phase_flow`: Euler integration, except the `i == 0` reset in
inhale. -/
def phase_volume (expFn : ℚ → ℚ) (p : SimParams) (st : SimulationState)
    (current_volume current_pressure : ℚ) : ℚ :=
  let fl := phase_flow expFn p st current_pressure
  match st.phase with
  | .inhale => if st.i > 0 then current_volume + fl * p.dt else 0
  | _ => current_volume + fl * p.dt

end CPAP

namespace CPAP

/-- C1. For every error value `e`, a tick of the controller in PI mode
(`use_derivative=False`) adds `clip(e * dt, min, max)` to the stored
integral — the clamp bounds the per-step increment, which is then
accumulated — and returns `Kp*e + Ki*(the updated integral)`. -/
theorem C1_pi_tick (s : PIDState) (e : ℚ) :
    (call_PI s e).1.integral = s.integral + npClip (e * s.dt) s.min s.max ∧
    (call_PI s e).2 =
      s.Kp * e + s.Ki * (s.integral + npClip (e * s.dt) s.min s.max) ∧
    (call_PI s e).1.previous_error = e := by
  refine ⟨rfl, rfl, rfl⟩

/-- C2. For every error value `e`, a tick in derivative-enabled mode
(`use_derivative=True`) computes `derivative = (e - previous_error) / dt`
inside the value `Kp*e + Ki*integral + Kd*derivative`, but the call returns
no value (`none`, Python `None`); `previous_error` becomes `e` only after the
output computation, so the next tick's derivative is `(e' - e) / dt`. -/
theorem C2_pid_tick (s : PIDState) (e e' : ℚ) :
    (call_PID s e).2 = none ∧
    (call_PID s e).1.integral = s.integral + npClip (e * s.dt) s.min s.max ∧
    PID_computed_value s e =
      s.Kp * e + s.Ki * (s.integral + npClip (e * s.dt) s.min s.max) +
        s.Kd * ((e - s.previous_error) / s.dt) ∧
    (call_PID s e).1.previous_error = e ∧
    PID_computed_value (call_PID s e).1 e' =
      (call_PID s e).1.Kp * e' +
        (call_PID s e).1.Ki *
          ((call_PID s e).1.integral +
            npClip (e' * s.dt) s.min s.max) +
        (call_PID s e).1.Kd * ((e' - e) / s.dt) := by
  refine ⟨rfl, rfl, rfl, rfl, rfl⟩

/-- C4. Given apparent dead time `L` and time constant `T` from the
reaction-curve tangent analysis, the ZN tuner (on its returning path,
`plot=False`) returns exactly `(T/L, 0, 0)` for family `"P"`,
`(0.9*T/L, L/0.3, 0)` for `"PI"`, and `(1.2*T/L, 2*L, 0.5*L)` for `"PID"`. -/
theorem C4_zn_gain_formulas (L T : ℚ) :
    train_pid_with_ZN_method L T "P" false = .gains (T / L, 0, 0) ∧
    train_pid_with_ZN_method L T "PI" false =
      .gains (0.9 * (T / L), L / 0.3, 0) ∧
    train_pid_with_ZN_method L T "PID" false =
      .gains (1.2 * (T / L), 2 * L, 0.5 * L) := by
  refine ⟨rfl, rfl, rfl⟩

/-- C5. The claim says the gains returned do not depend on the plotting
flag.  In the code they do: at `L=1, T=4`, family `"PI"`, the call with
`plot=True` computes the triple `(18/5, 10/3, 0)` but then executes `exit()`
(line 150), terminating the process without returning, while `plot=False`
returns that triple — the two runs have different outcomes. -/
theorem C5_plot_exits_at_failing_input :
    train_pid_with_ZN_method 1 4 "PI" true = .exited (18/5, 10/3, 0) ∧
    train_pid_with_ZN_method 1 4 "PI" false = .gains (18/5, 10/3, 0) ∧
    train_pid_with_ZN_method 1 4 "PI" true ≠
      train_pid_with_ZN_method 1 4 "PI" false := by
  refine ⟨?_, ?_, ?_⟩ <;>
  · simp only [train_pid_with_ZN_method, zn_gain_table, String.reduceEq,
      reduceIte]
    norm_num
    try exact fun h => ZNOutcome.noConfusion h

/-- C8, counterexample. The claim says both tuners reject a
controller-family string outside `{"P","PI","PID"}` with an invalid-argument
error.  The optimization tuner does not: `train_pid_controller` never reads
`pid_type` on its non-`"ZN"` path, so with method `"BFGS"` and the invalid
family `"NOT_A_TYPE"` it proceeds and returns a controller. -/
theorem C8_optimizer_ignores_family :
    train_pid_controller (fun g => g) 1 4 "BFGS" "NOT_A_TYPE" (0, 0, 0) =
      .controller (0, 0, 0) ∧
    TrainResult.controller ((0 : ℚ), (0 : ℚ), (0 : ℚ)) ≠ .invalidType := by
  refine ⟨rfl, by decide⟩

/-- C8, amended. The ZN tuner raises an explicit invalid-argument error
for every family string outside `{"P","PI","PID"}` (before plotting, for
either plot flag); the optimization tuner ignores the family string entirely
and returns the optimizer's result for any family. -/
theorem C8_amended_family_validation :
    (∀ (L T : ℚ) (ty : String) (plot : Bool),
      ty ≠ "P" → ty ≠ "PI" → ty ≠ "PID" →
      train_pid_with_ZN_method L T ty plot = .invalidType) ∧
    (∀ (optimizer : ℚ × ℚ × ℚ → ℚ × ℚ × ℚ) (L T : ℚ)
      (meth ty : String) (init : ℚ × ℚ × ℚ), meth ≠ "ZN" →
      train_pid_controller optimizer L T meth ty init =
        .controller (optimizer init)) := by
  constructor
  · intro L T ty plot h1 h2 h3
    simp [train_pid_with_ZN_method, zn_gain_table, h1, h2, h3]
  · intro optimizer L T meth ty init hm
    simp [train_pid_controller, hm]

/-- Witness for `C8_amended_family_validation` at concrete inputs. -/
theorem C8_amended_family_validation_witness :
    train_pid_with_ZN_method 1 4 "PD" true = .invalidType ∧
    train_pid_controller (fun g => g) 1 4 "BFGS" "PI" (1, 2, 3) =
      .controller (1, 2, 3) :=
  ⟨C8_amended_family_validation.1 1 4 "PD" true (by decide) (by decide)
      (by decide),
   C8_amended_family_validation.2 (fun g => g) 1 4 "BFGS" "PI" (1, 2, 3)
      (by decide)⟩

/-- C10. Calling `train_pid_controller` with
`pid_training_method="ZN"` never returns a controller: the ZN tuner is
invoked with `plot` left at its default `True`, so a valid family ends in
`exit()` with the computed gains never returned (shown concretely for
`"PI"`), and an invalid family raises; no path reaches the controller
construction. -/
theorem C10_zn_training_never_returns_controller
    (optimizer : ℚ × ℚ × ℚ → ℚ × ℚ × ℚ) (L T : ℚ) (ty : String)
    (init : ℚ × ℚ × ℚ) :
    (train_pid_controller optimizer L T "ZN" ty init).isController = false ∧
    train_pid_controller optimizer L T "ZN" "PI" init =
      .exited (0.9 * (T / L), L / 0.3, 0) := by
  constructor
  · unfold train_pid_controller train_pid_with_ZN_method
    cases zn_gain_table ty L T <;> simp [TrainResult.isController]
  · simp [train_pid_controller, train_pid_with_ZN_method, zn_gain_table]

/-- C3. The plant simulator's phase machine: states
`{exhale, inhale, pause}` with initial state `exhale` (and initial counter 1,
initial tick index 0); every transition is count-driven — it fires exactly
when the incremented phase counter reaches the phase's duration times the
sample frequency — sets `phase_counter` to 1 (not 0), follows the cycle
exhale → inhale → pause → exhale with no terminal state, and the tick index
`i` increases by exactly 1 on every call regardless of phase and is never
reset. -/
theorem C3_phase_state_machine (expFn : ℚ → ℚ) (p : SimParams)
    (st : SimulationState) (u_t cf cv cpre : ℚ) :
    CpapEnv.initial_state.phase = .exhale ∧
    CpapEnv.initial_state.i = 0 ∧
    CpapEnv.initial_state.phase_counter = 1 ∧
    (simulation_model expFn p st u_t cf cv cpre).1.i = st.i + 1 ∧
    (simulation_model expFn p st u_t cf cv cpre).1.phase =
      (if ((st.phase_counter + 1 : ℕ) : ℚ) ≥
          phase_duration ⟨p.v_t, p.peep, p.rr, p.t_i, p.t_ip⟩ st.phase * p.f_s
       then cycle_next st.phase else st.phase) ∧
    (simulation_model expFn p st u_t cf cv cpre).1.phase_counter =
      (if ((st.phase_counter + 1 : ℕ) : ℚ) ≥
          phase_duration ⟨p.v_t, p.peep, p.rr, p.t_i, p.t_ip⟩ st.phase * p.f_s
       then 1 else st.phase_counter + 1) := by
  obtain ⟨i, pc, ph, spt⟩ := st
  refine ⟨rfl, rfl, rfl, ?_, ?_, ?_⟩ <;>
    cases ph <;>
      (unfold simulation_model; dsimp only [phase_duration, cycle_next]) <;>
        (repeat' split) <;> rfl

/-- C6. Whenever the simulator is in the exhale phase with the
phase-entry condition `phase_counter == 0`, the phase start time is latched
to the current tick time `i * dt`, and the exponential-decay flow computed
on that tick measures elapsed time from that entry (its start-time and
current-time arguments are both `i * dt`). -/
theorem C6_exhale_entry_latch (expFn : ℚ → ℚ) (p : SimParams)
    (st : SimulationState) (u_t cf cv cpre : ℚ)
    (hph : st.phase = .exhale) (hpc : st.phase_counter = 0) :
    (simulation_model expFn p st u_t cf cv cpre).1.start_phase_time =
      (st.i : ℚ) * p.dt ∧
    (simulation_model expFn p st u_t cf cv cpre).2.x1 =
      expiratory_flow expFn ⟨p.r_aw, p.c_rs⟩
        ⟨p.v_t, p.peep, p.rr, p.t_i, p.t_ip⟩ cpre
        ((st.i : ℚ) * p.dt) ((st.i : ℚ) * p.dt) * 60 / 1000 := by
  obtain ⟨i, pc, ph, spt⟩ := st
  subst hph
  subst hpc
  constructor
  · unfold simulation_model
    dsimp only
    (repeat' split) <;> first | rfl | (exfalso; omega)
  · simp [simulation_model]

/-- Witness for `C6_exhale_entry_latch`: with the hard-wired ensemble
parameters of `create_cpap_environment`, in exhale with `phase_counter = 0`
at tick 7 and pressure 2, the start time latches to `7/30` and the reported
flow is `(5-2)/(3/1000) * expFn 0 * 60/1000 = 60` for the constant-one
`expFn`. -/
theorem C6_exhale_entry_latch_witness :
    (simulation_model (fun _ => 1) create_cpap_sample_params
        ⟨7, 0, .exhale, 99⟩ 0 0 0 2).1.start_phase_time = 7 / 30 ∧
    (simulation_model (fun _ => 1) create_cpap_sample_params
        ⟨7, 0, .exhale, 99⟩ 0 0 0 2).2.x1 = 60 := by
  obtain ⟨h1, h2⟩ := C6_exhale_entry_latch (fun _ => 1)
    create_cpap_sample_params ⟨7, 0, .exhale, 99⟩ 0 0 0 2 rfl rfl
  constructor
  · rw [h1]; norm_num [create_cpap_sample_params]
  · rw [h2]
    norm_num [expiratory_flow, Lung._r_aw, create_cpap_sample_params]

/-- C7, counterexample. The claim says parameter values making the
derived expiratory time non-positive are rejected at construction.  The
`Ventilator` constructor performs no validation: with `rr=60, t_i=1,
t_ip=1/4` (cycle time 1 s) it succeeds and yields `t_e = -1/4 ≤ 0`. -/
theorem C7_no_validation_counterexample :
    (Ventilator.mk 350 5 60 1 (1/4)).t_e = -(1/4) ∧
    ¬ 0 < (Ventilator.mk 350 5 60 1 (1/4)).t_e := by
  norm_num [Ventilator.t_e, Ventilator.t_c, Ventilator._rr]

/-- C7, amended. Ventilator parameter construction computes
cycle time `= 60/rate`, expiratory time `= cycle time − inspiratory time −
pause time`, and inspiratory flow `= tidal volume / inspiratory time`, but
enforces nothing: configurations with non-positive derived expiratory time
are accepted unchanged (shown at `rr=60, t_i=1, t_ip=3/4`). -/
theorem C7_ventilator_derived_parameters (v_t peep rr t_i t_ip : ℚ) :
    (Ventilator.mk v_t peep rr t_i t_ip).t_c = 60 / rr ∧
    (Ventilator.mk v_t peep rr t_i t_ip).t_e =
      (Ventilator.mk v_t peep rr t_i t_ip).t_c - t_i - t_ip ∧
    (Ventilator.mk v_t peep rr t_i t_ip)._f_i = v_t / t_i ∧
    (Ventilator.mk 350 5 60 1 (3/4)).t_e < 0 := by
  refine ⟨?_, rfl, rfl, ?_⟩
  · simp [Ventilator.t_c, Ventilator._rr, one_div_div]
  · norm_num [Ventilator.t_e, Ventilator.t_c, Ventilator._rr]

/-- C9. On every tick the observation is exactly the triple
`(flow, volume, pressure)` in which the reported flow equals the internally
computed phase flow multiplied by `60/1000`, while the volume and pressure
equations are evaluated on the unconverted phase flow — the conversion is
applied only at the observation boundary. -/
theorem C9_observation_boundary (expFn : ℚ → ℚ) (p : SimParams)
    (st : SimulationState) (u_t cf cv cpre : ℚ) :
    (simulation_model expFn p st u_t cf cv cpre).2 =
      { x1 := phase_flow expFn p st cpre * 60 / 1000,
        x2 := phase_volume expFn p st cv cpre,
        x3 := phase_flow expFn p st cpre * (Lung.mk p.r_aw p.c_rs)._r_aw +
          phase_volume expFn p st cv cpre / p.c_rs + p.peep } := by
  obtain ⟨i, pc, ph, spt⟩ := st
  cases ph <;>
    simp [simulation_model, phase_flow, phase_volume]

end CPAP
